import Mathlib

/-!
Shallow embedding of the introspection / readiness core of telepathy-glib
(`connection-manager.c`), of the telepathy-logger channel observer
(`observer.c`), and of the debug sender (`debug-sender.c`).

State records mirror the C structs field by field; each C handler becomes a
Lean function on the state.  Asynchronous completions (D-Bus replies, idle
callbacks, name-owner notifications) are events chosen by the environment;
an event-step function and a reachability predicate tie them together.
Ghost counters (`calls_issued`, `activated_emitted`, ...) record the
observable actions (method calls issued, signals emitted) of each handler.
-/

/-! ## Connection manager (`connection-manager.c`) -/

/-- `TpCMInfoSource` from the source: provenance of the protocol data. -/
inductive TpCMInfoSource
  | none
  | file
  | live
deriving DecidableEq

/-- Numeric value of the C enum (`NONE = 0 < FILE = 1 < LIVE = 2`). -/
def TpCMInfoSource.toNat : TpCMInfoSource → Nat
  | .none => 0
  | .file => 1
  | .live => 2

/-- `IntrospectionStep` from the source. -/
inductive IntrospectionStep
  | idle
  | gettingProperties
  | listingProtocols
  | gettingParameters
deriving DecidableEq

/-- Errors that can reach the introspection machinery. -/
inductive CMError
  | nameOwnerLost
  | dbusError (code : Nat)
deriving DecidableEq

/-- Readiness of the `TP_CONNECTION_MANAGER_FEATURE_CORE` feature
(`_tp_proxy_set_feature_prepared` / `_tp_proxy_set_features_failed`). -/
inductive FeatureState
  | unprepared
  | prepared
  | failed (e : CMError)
deriving DecidableEq

/-- A protocol table (`GHashTable` keyed by protocol name); we track the key
set, in insertion order. -/
abbrev ProtocolTable := List String

/-- `g_hash_table_insert`: replacing an existing key leaves the key set
unchanged, a new key is appended. -/
def hashTableInsert (t : ProtocolTable) (k : String) : ProtocolTable :=
  if t.contains k then t else t ++ [k]

/-- `g_ascii_isalpha`. -/
def g_ascii_isalpha (c : Char) : Bool :=
  (('a' ≤ c && c ≤ 'z') || ('A' ≤ c && c ≤ 'Z'))

/-- `g_ascii_isalnum`. -/
def g_ascii_isalnum (c : Char) : Bool :=
  g_ascii_isalpha c || ('0' ≤ c && c ≤ '9')

/-- `tp_connection_manager_check_valid_protocol_name`: non-empty, first char
an ASCII letter, every char an ASCII letter, digit or hyphen. -/
def tp_connection_manager_check_valid_protocol_name (name : String) : Bool :=
  match name.data with
  | [] => false
  | c :: _ =>
      g_ascii_isalpha c &&
        name.data.all (fun ch => g_ascii_isalnum ch || ch == '-')

/-- The `TpConnectionManager` proxy state: public fields (`info_source`,
`running`, `always_introspect`) plus `TpConnectionManagerPrivate`, plus ghost
counters for issued `GetAll` calls and emitted signals. -/
structure CMState where
  introspection_step : IntrospectionStep
  /-- whether `introspection_call` (the pending `GetAll`) is non-NULL -/
  introspection_call : Bool
  found_protocols : Option ProtocolTable
  protocol_objects : Option ProtocolTable
  info_source : TpCMInfoSource
  always_introspect : Bool
  running : Bool
  name_known : Bool
  want_activation : Bool
  /-- whether `introspect_idle_id` is non-zero (an idle introspect is queued) -/
  introspect_idle_id : Bool
  /-- whether `manager_file_read_idle_id` is non-zero -/
  manager_file_read_idle_id : Bool
  manager_file : Option String
  core_feature : FeatureState
  /-- ghost: how many `GetAll` method calls were issued so far -/
  calls_issued : Nat
  /-- ghost: how many times the `activated` signal was emitted -/
  activated_emitted : Nat
  /-- ghost: how many times the `exited` signal was emitted -/
  exited_emitted : Nat
  /-- ghost: how many times the `got-info` signal was emitted -/
  got_info_emitted : Nat
deriving DecidableEq

/-- `tp_connection_manager_ready_or_failed`: suppress the error if
`info_source > TP_CM_INFO_SOURCE_NONE`, then mark the core feature prepared
(no error) or failed (error). -/
def tp_connection_manager_ready_or_failed (s : CMState)
    (error : Option CMError) : CMState :=
  { s with core_feature :=
      match (if TpCMInfoSource.none.toNat < s.info_source.toNat
             then Option.none else error) with
      | Option.none => FeatureState.prepared
      | Option.some e => FeatureState.failed e }

/-- `tp_connection_manager_end_introspection`: reset the step, cancel any
pending call, drop the scratch table, emit `got-info`, then resolve the core
feature via `tp_connection_manager_ready_or_failed`. -/
def tp_connection_manager_end_introspection (s : CMState)
    (error : Option CMError) : CMState :=
  tp_connection_manager_ready_or_failed
    { s with introspection_step := IntrospectionStep.idle,
             introspection_call := false,
             found_protocols := Option.none,
             got_info_emitted := s.got_info_emitted + 1 }
    error

/-- `tp_connection_manager_continue_introspection`: from `INTROSPECT_IDLE`,
issue the `GetAll` call; otherwise swap `found_protocols` into
`protocol_objects`, set `info_source` to `LIVE` and end the introspection
successfully. -/
def tp_connection_manager_continue_introspection (s : CMState) : CMState :=
  if s.introspection_step = IntrospectionStep.idle then
    { s with introspection_step := IntrospectionStep.gettingProperties,
             introspection_call := true,
             calls_issued := s.calls_issued + 1 }
  else
    tp_connection_manager_end_introspection
      { s with protocol_objects := s.found_protocols,
               found_protocols := s.protocol_objects,
               info_source := TpCMInfoSource.live }
      Option.none

/-- `introspection_in_progress`: a pending call or a non-NULL scratch table. -/
def introspection_in_progress (s : CMState) : Bool :=
  s.introspection_call || s.found_protocols.isSome

/-- `tp_connection_manager_idle_introspect`: start introspecting if wanted and
not already in progress; the idle source id is cleared in any case. -/
def tp_connection_manager_idle_introspect (s : CMState) : CMState :=
  let s :=
    if !introspection_in_progress s &&
        (s.always_introspect || s.info_source == TpCMInfoSource.none) then
      tp_connection_manager_continue_introspection s
    else s
  { s with introspect_idle_id := false }

/-- Build `found_protocols` from the `Protocols` entry of a `GetAll` reply:
names failing `tp_connection_manager_check_valid_protocol_name` are ignored,
the rest are inserted into a fresh hash table. -/
def build_found_protocols (protocols : List String) : ProtocolTable :=
  protocols.foldl
    (fun t name =>
      if tp_connection_manager_check_valid_protocol_name name then
        hashTableInsert t name
      else t)
    []

/-- `tp_connection_manager_get_all_cb`: the reply to the pending `GetAll`.
`Except.ok protocols` is a successful reply whose optional `Protocols`
property holds the given protocol names (`Option.none` when the reply has no
usable `Protocols` entry); `Except.error` is a failed call. -/
def tp_connection_manager_get_all_cb (s : CMState)
    (reply : Except CMError (Option (List String))) : CMState :=
  let s := { s with introspection_call := false }
  match reply with
  | .ok protocols =>
      let s :=
        match protocols with
        | Option.some protos =>
            { s with found_protocols := Option.some (build_found_protocols protos) }
        | Option.none => s
      tp_connection_manager_continue_introspection s
  | .error e =>
      let s :=
        if !s.running then { s with exited_emitted := s.exited_emitted + 1 }
        else s
      tp_connection_manager_end_introspection s (Option.some e)

/-- The trailing block of `tp_connection_manager_name_owner_changed_cb`
(executed on every invocation): on the first notification, schedule the
`.manager` file read, schedule introspection if activation was requested, and
record that the name owner is now known. -/
def name_owner_changed_tail (s : CMState) : CMState :=
  if !s.name_known then
    let s := { s with manager_file_read_idle_id := true }
    let s :=
      if s.want_activation && !s.introspect_idle_id then
        { s with introspect_idle_id := true }
      else s
    { s with name_known := true }
  else s

/-- Lines 509-511 of `tp_connection_manager_name_owner_changed_cb`: cancel a
pending introspection, if any, with the name-owner-lost error. -/
def cm_cancel_introspection_on_owner_lost (s : CMState) : CMState :=
  if introspection_in_progress s then
    tp_connection_manager_end_introspection s (Option.some CMError.nameOwnerLost)
  else s

/-- Lines 513-519 of `tp_connection_manager_name_owner_changed_cb`: emit
`exited` only if the owner was previously known (an initial `""` is not an
exit). -/
def cm_emit_exited_if_known (s : CMState) : CMState :=
  if s.name_known then { s with exited_emitted := s.exited_emitted + 1 }
  else s

/-- `tp_connection_manager_name_owner_changed_cb` for `new_owner == ""`:
mark not running, cancel any in-flight introspection with a
name-owner-lost error, emit `exited` if the owner was previously known,
then run the common tail. -/
def tp_connection_manager_name_owner_changed_empty (s : CMState) : CMState :=
  name_owner_changed_tail
    (cm_emit_exited_if_known
      (cm_cancel_introspection_on_owner_lost { s with running := false }))

/-- Lines 527-532 of `tp_connection_manager_name_owner_changed_cb` plus the
common tail: mark the manager running, emit `activated`, schedule an idle
introspection if none is queued. -/
def cm_restart_after_exit (s : CMState) : CMState :=
  name_owner_changed_tail
    (if !s.introspect_idle_id then
       { s with running := true,
                activated_emitted := s.activated_emitted + 1,
                introspect_idle_id := true }
     else
       { s with running := true,
                activated_emitted := s.activated_emitted + 1 })

/-- `tp_connection_manager_name_owner_changed_cb`: for a non-empty new owner,
an atomic change of ownership while running is processed as the `""` case
(recursive call) followed by the restart handling. -/
def tp_connection_manager_name_owner_changed_cb (s : CMState)
    (new_owner : String) : CMState :=
  if new_owner = "" then
    tp_connection_manager_name_owner_changed_empty s
  else
    cm_restart_after_exit
      (if s.running then tp_connection_manager_name_owner_changed_empty s
       else s)

/-- `tp_connection_manager_idle_read_manager_file`.  The outcome of
`tp_connection_manager_read_file` (filesystem access) is an environment
input: `.ok protocols` is a successfully parsed `.manager` file with the
given protocol table, `.error` a missing or malformed file. -/
def tp_connection_manager_idle_read_manager_file (s : CMState)
    (read_result : Except Unit ProtocolTable) : CMState :=
  let s := { s with manager_file_read_idle_id := false }
  if s.protocol_objects = Option.none then
    let fallback :=
      if !s.introspect_idle_id then tp_connection_manager_idle_introspect s
      else s
    match s.manager_file with
    | Option.some f =>
        if f ≠ "" then
          match read_result with
          | .ok protocols =>
              tp_connection_manager_ready_or_failed
                { s with protocol_objects := Option.some protocols,
                         info_source := TpCMInfoSource.file,
                         got_info_emitted := s.got_info_emitted + 1 }
                Option.none
          | .error _ => fallback
        else fallback
    | Option.none => fallback
  else s

/-- `tp_connection_manager_set_property` for `PROP_MANAGER_FILE`; when the
value is NULL the result of `tp_connection_manager_find_manager_file` (a
filesystem search, environment input `searched`) is used instead; once the
name is known, a re-read is scheduled. -/
def tp_connection_manager_set_property_manager_file (s : CMState)
    (value : Option String) (searched : Option String) : CMState :=
  if s.name_known then
    let s :=
      { s with manager_file :=
          match value with
          | Option.none => searched
          | Option.some v => Option.some v }
    if !s.manager_file_read_idle_id then
      { s with manager_file_read_idle_id := true }
    else s
  else
    { s with manager_file := value }

/-- `tp_connection_manager_set_property` for `PROP_ALWAYS_INTROSPECT`. -/
def tp_connection_manager_set_property_always_introspect (s : CMState)
    (value : Bool) : CMState :=
  let old := s.always_introspect
  let s := { s with always_introspect := value }
  if s.running && !old && s.always_introspect then
    if !s.introspect_idle_id then { s with introspect_idle_id := true } else s
  else s

/-- `tp_connection_manager_activate` (the returned Bool is its C result). -/
def tp_connection_manager_activate (s : CMState) : CMState × Bool :=
  if s.name_known then
    if s.running then (s, false)
    else
      (if !s.introspect_idle_id then { s with introspect_idle_id := true }
       else s, true)
  else
    ({ s with want_activation := true }, true)

/-- The asynchronous completions delivered to a connection-manager proxy by
the event loop; payloads are environment inputs (D-Bus replies, file
contents). -/
inductive CMEvent
  | nameOwnerChanged (new_owner : String)
  | idleIntrospect
  | idleReadManagerFile (read_result : Except Unit ProtocolTable)
  | getAllReply (reply : Except CMError (Option (List String)))
  | setManagerFile (value : Option String) (searched : Option String)
  | setAlwaysIntrospect (value : Bool)
  | activate

/-- One event-loop dispatch.  Idle callbacks only run while their source id
is set, and a `GetAll` reply is only delivered while the call is pending
(`tp_proxy_pending_call_cancel` prevents the callback otherwise). -/
def cmStep (s : CMState) (e : CMEvent) : CMState :=
  match e with
  | .nameOwnerChanged owner => tp_connection_manager_name_owner_changed_cb s owner
  | .idleIntrospect =>
      if s.introspect_idle_id then tp_connection_manager_idle_introspect s else s
  | .idleReadManagerFile r =>
      if s.manager_file_read_idle_id then
        tp_connection_manager_idle_read_manager_file s r
      else s
  | .getAllReply r =>
      if s.introspection_call then tp_connection_manager_get_all_cb s r else s
  | .setManagerFile v f => tp_connection_manager_set_property_manager_file s v f
  | .setAlwaysIntrospect b => tp_connection_manager_set_property_always_introspect s b
  | .activate => (tp_connection_manager_activate s).1

/-- A freshly constructed proxy (`tp_connection_manager_init` plus the
constructor); `manager_file` is the construct-time property (or the result
of the initial filesystem search). -/
def cmInit (manager_file : Option String) : CMState :=
  { introspection_step := IntrospectionStep.idle
    introspection_call := false
    found_protocols := Option.none
    protocol_objects := Option.none
    info_source := TpCMInfoSource.none
    always_introspect := false
    running := false
    name_known := false
    want_activation := false
    introspect_idle_id := false
    manager_file_read_idle_id := false
    manager_file := manager_file
    core_feature := FeatureState.unprepared
    calls_issued := 0
    activated_emitted := 0
    exited_emitted := 0
    got_info_emitted := 0 }

/-- States reachable by event-loop dispatches from a fresh proxy. -/
inductive CMReachable : CMState → Prop
  | init (manager_file : Option String) : CMReachable (cmInit manager_file)
  | step {s : CMState} (e : CMEvent) : CMReachable s → CMReachable (cmStep s e)

/-- The structural invariant of the introspection machinery: between
event-loop dispatches the scratch table is NULL (it lives only inside the
`GetAll` callback), and the step is `GETTING_PROPERTIES` exactly while the
`GetAll` call is pending. -/
def CMInv (s : CMState) : Prop :=
  s.found_protocols = Option.none ∧
  s.introspection_step =
    (if s.introspection_call then IntrospectionStep.gettingProperties
     else IntrospectionStep.idle)

/-! ## Channel observer (`observer.c`, telepathy-logger) -/

/-- One element of the `channels` array handed to `ObserveChannels`, together
with the environment's answers for it: whether the channel factory produces a
`TplChannel` for it, and whether its preparation (`tpl_action_chain`) will
eventually succeed. -/
structure TplChannelInput where
  path : String
  factory_ok : Bool
  prep_ok : Bool
deriving DecidableEq

/-- Observer state: the channel map (registered object paths) and a ghost
count of replies returned to the channel dispatcher
(`tp_svc_client_observer_return_from_observe_channels`). -/
structure ObsState where
  channel_map : List String
  replies_sent : Nat
deriving DecidableEq

/-- `tpl_observer_register_channel`: insert the channel's object path into
the channel map (`g_hash_table_insert`). -/
def tpl_observer_register_channel (st : ObsState) (path : String) : ObsState :=
  { st with channel_map :=
      if st.channel_map.contains path then st.channel_map
      else st.channel_map ++ [path] }

/-- The `ObservingContext` allocated by `tpl_observer_observe_channels`. -/
structure ObservingContext where
  chan_n : Nat
  has_dbus_ctx : Bool
deriving DecidableEq

/-- Second half of `got_tpl_channel_text_ready_cb`: decrement `chan_n`; when
it reaches zero, return the reply to the dispatcher (when a D-Bus context is
present) and free the context (`Option.none`). -/
def gtcr_decrement_and_finish (st : ObsState)
    (ctx : ObservingContext) : ObsState × Option ObservingContext :=
  if ctx.chan_n - 1 = 0 then
    (if ctx.has_dbus_ctx then { st with replies_sent := st.replies_sent + 1 }
     else st,
     Option.none)
  else
    (st, Option.some { ctx with chan_n := ctx.chan_n - 1 })

/-- `got_tpl_channel_text_ready_cb`: register the channel on success (a
failed preparation is only logged), then decrement the counter and possibly
reply. -/
def got_tpl_channel_text_ready_cb (st : ObsState) (ctx : ObservingContext)
    (ch : TplChannelInput) : ObsState × Option ObservingContext :=
  gtcr_decrement_and_finish
    (if ch.prep_ok then tpl_observer_register_channel st ch.path else st) ctx

/-- Environment answers for the checks `tpl_observer_observe_channels`
performs before fanning out. -/
structure ObsEnv where
  globally_enabled : Bool
  account_ignored : Bool
  bus_daemon_ok : Bool
  account_proxy_ok : Bool
  connection_proxy_ok : Bool
deriving DecidableEq

/-- `TPL_STR_EMPTY`: NULL or empty. -/
def tpl_str_empty : Option String → Bool
  | Option.none => true
  | Option.some s => s.isEmpty

/-- How a call to `tpl_observer_observe_channels` returns:
`preconditionFailed` is a `g_return_if_fail` bail-out (no reply of any kind);
`errorReturn` is the `goto error` path (an immediate plain reply when a D-Bus
context is present); `started ctx started` is the normal path, with the
allocated context and the channels whose preparation was actually started
(those the factory accepted). -/
inductive ObserveOutcome
  | preconditionFailed
  | errorReturn
  | started (ctx : ObservingContext) (started : List TplChannelInput)
deriving DecidableEq

/-- `tpl_observer_observe_channels`. -/
def tpl_observer_observe_channels (env : ObsEnv)
    (account connection : Option String)
    (channels : List TplChannelInput)
    (has_dbus_ctx : Bool)
    (st : ObsState) : ObsState × ObserveOutcome :=
  if tpl_str_empty account then (st, ObserveOutcome.preconditionFailed)
  else if tpl_str_empty connection then (st, ObserveOutcome.preconditionFailed)
  else
    let errorPath : ObsState × ObserveOutcome :=
      (if has_dbus_ctx then { st with replies_sent := st.replies_sent + 1 }
       else st,
       ObserveOutcome.errorReturn)
    if !env.globally_enabled then errorPath
    else if env.account_ignored then errorPath
    else if !env.bus_daemon_ok then errorPath
    else if !env.account_proxy_ok then errorPath
    else if !env.connection_proxy_ok then errorPath
    else
      (st, ObserveOutcome.started
        { chan_n := channels.length, has_dbus_ctx := has_dbus_ctx }
        (channels.filter (fun c => c.factory_ok)))

/-- Deliver the pending readiness callbacks for the given channels, in the
given order, threading the context until it is freed. -/
def run_ready_callbacks : ObsState → Option ObservingContext →
    List TplChannelInput → ObsState × Option ObservingContext
  | st, ctx, [] => (st, ctx)
  | st, Option.none, _ :: _ => (st, Option.none)
  | st, Option.some ctx0, c :: rest =>
      run_ready_callbacks (got_tpl_channel_text_ready_cb st ctx0 c).1
        (got_tpl_channel_text_ready_cb st ctx0 c).2 rest

/-- The channel-map effect of one settled preparation. -/
def settle_register (m : List String) (c : TplChannelInput) : List String :=
  if c.prep_ok then (if m.contains c.path then m else m ++ [c.path]) else m

/-! ## Singleton constructor (`debug-sender.c`) -/

/-- A minimal GObject heap: the next fresh address and per-object strong
reference counts (0 means not alive). -/
structure GObjectHeap where
  next_id : Nat
  refcount : Nat → Nat

/-- `g_object_ref`. -/
def g_object_ref (h : GObjectHeap) (i : Nat) : GObjectHeap :=
  { h with refcount := fun j => if j = i then h.refcount i + 1 else h.refcount j }

/-- Chaining up to `G_OBJECT_CLASS (parent_class)->constructor`: allocate a
fresh instance with one strong reference. -/
def parent_constructor (h : GObjectHeap) : GObjectHeap × Nat :=
  ({ next_id := h.next_id + 1,
     refcount := fun j => if j = h.next_id then 1 else h.refcount j },
   h.next_id)

/-- The debug-sender process state: the heap, the static `debug_sender` weak
pointer, and a ghost list of every instance the constructor ever returned. -/
structure SenderProcess where
  heap : GObjectHeap
  debug_sender : Option Nat
  constructed : List Nat

/-- `tp_debug_sender_constructor`: return the cached instance with an added
reference if the weak pointer is set, otherwise chain up, cache the new
instance and add the weak pointer. -/
def tp_debug_sender_constructor (s : SenderProcess) : SenderProcess × Nat :=
  match s.debug_sender with
  | Option.none =>
      let r := parent_constructor s.heap
      ({ heap := r.1, debug_sender := Option.some r.2,
         constructed := s.constructed ++ [r.2] }, r.2)
  | Option.some i =>
      ({ s with heap := g_object_ref s.heap i,
                constructed := s.constructed ++ [i] }, i)

/-- `g_object_unref`: dropping the last strong reference destroys the
instance, which clears any weak pointer registered on it
(`g_object_add_weak_pointer`). -/
def g_object_unref (s : SenderProcess) (i : Nat) : SenderProcess :=
  if s.heap.refcount i ≤ 1 then
    { s with
      heap := { s.heap with
        refcount := fun j => if j = i then 0 else s.heap.refcount j },
      debug_sender :=
        if s.debug_sender = Option.some i then Option.none else s.debug_sender }
  else
    { s with
      heap := { s.heap with
        refcount := fun j => if j = i then s.heap.refcount i - 1
                             else s.heap.refcount j } }

/-- `tp_debug_sender_constructed`, the class's `constructed` hook (installed
in `tp_debug_sender_class_init`): it re-enters `g_object_new`
(`debug_sender = g_object_new (TP_TYPE_DEBUG_SENDER, NULL)`), which runs the
custom constructor again; the weak pointer being set by now, that inner call
returns the cached instance with an added strong reference, which is stored
into the static and never released.  The D-Bus daemon lookup and object
registration the hook performs afterwards are outside the model and do not
touch the reference counts (the early return on a daemon error changes
nothing modelled either, since the leaking assignment precedes it). -/
def tp_debug_sender_constructed (s : SenderProcess) : SenderProcess :=
  (tp_debug_sender_constructor s).1

/-- `g_object_new (TP_TYPE_DEBUG_SENDER, NULL)`, as performed by
`tp_debug_sender_dup`: GObject runs the custom constructor and, only when
the instance it returned was newly constructed (the chain-up case, i.e. the
weak pointer was unset on entry — GObject skips the hook when a constructor
returns an existing object), invokes the `constructed` hook on it. -/
def tp_debug_sender_g_object_new (s : SenderProcess) : SenderProcess × Nat :=
  match s.debug_sender with
  | Option.none =>
      (tp_debug_sender_constructed (tp_debug_sender_constructor s).1,
       (tp_debug_sender_constructor s).2)
  | Option.some _ => tp_debug_sender_constructor s

/-- Client-visible operations on the singleton. -/
inductive SenderOp
  | dup
  | unref (i : Nat)

/-- One operation (`tp_debug_sender_dup` is `g_object_new`, which runs the
constructor and — on a fresh construction — the `constructed` hook; `unref`
is only meaningful on a live instance). -/
def senderStep (s : SenderProcess) (op : SenderOp) : SenderProcess :=
  match op with
  | .dup => (tp_debug_sender_g_object_new s).1
  | .unref i => if 0 < s.heap.refcount i then g_object_unref s i else s

/-- Process start: no instance yet. -/
def senderInit : SenderProcess :=
  { heap := { next_id := 0, refcount := fun _ => 0 },
    debug_sender := Option.none,
    constructed := [] }

/-- States reachable by dup/unref sequences from process start. -/
inductive SenderReachable : SenderProcess → Prop
  | init : SenderReachable senderInit
  | step {s : SenderProcess} (op : SenderOp) :
      SenderReachable s → SenderReachable (senderStep s op)

/-- Heap/weak-pointer invariant: the weak pointer only designates a live
already-allocated instance, addresses at or above `next_id` are unallocated,
and every instance ever returned was allocated. -/
def SenderInv (s : SenderProcess) : Prop :=
  (∀ i, s.debug_sender = Option.some i →
      0 < s.heap.refcount i ∧ i < s.heap.next_id) ∧
  (∀ j, s.heap.next_id ≤ j → s.heap.refcount j = 0) ∧
  (∀ i ∈ s.constructed, i < s.heap.next_id)

/-! ## Bounded debug-message queue (`debug-sender.c`) -/

/-- A debug message (`DebugMessage` in the source; the `GTimeVal` is kept as
seconds/microseconds, the conversion to a double is outside the model). -/
structure DebugMessage where
  timestamp_sec : Int
  timestamp_usec : Int
  domain : String
  level : Nat
  string : String
deriving DecidableEq

/-- `DEBUG_MESSAGE_LIMIT`. -/
def DEBUG_MESSAGE_LIMIT : Nat := 800

/-- The queue effect of `tp_debug_sender_add_message`: if the queue already
holds `DEBUG_MESSAGE_LIMIT` or more messages, pop (and free) the head, then
push the new message at the tail.  The list head is the oldest message. -/
def tp_debug_sender_add_message (q : List DebugMessage)
    (m : DebugMessage) : List DebugMessage :=
  let q := if DEBUG_MESSAGE_LIMIT ≤ q.length then q.tail else q
  q ++ [m]

/-! ## Helper lemmas -/

theorem idle_introspect_in_progress_noop (s : CMState)
    (h : introspection_in_progress s = true) :
    tp_connection_manager_idle_introspect s = { s with introspect_idle_id := false } := by
  unfold tp_connection_manager_idle_introspect
  simp [h]

theorem add_message_length (q : List DebugMessage) (m : DebugMessage) :
    (tp_debug_sender_add_message q m).length =
      (if DEBUG_MESSAGE_LIMIT ≤ q.length then q.length - 1 else q.length) + 1 := by
  unfold tp_debug_sender_add_message
  split <;> simp

theorem foldl_add_message_bound (msgs : List DebugMessage) (q : List DebugMessage)
    (h : q.length ≤ DEBUG_MESSAGE_LIMIT) :
    (msgs.foldl tp_debug_sender_add_message q).length ≤ DEBUG_MESSAGE_LIMIT := by
  induction msgs generalizing q with
  | nil => simpa using h
  | cons m rest ih =>
      refine ih _ ?_
      rw [add_message_length]
      unfold DEBUG_MESSAGE_LIMIT at *
      split <;> omega

/-! ## Claim theorems -/

/-- C1: whenever an introspection is in flight (a pending `GetAll` call or a
non-NULL scratch table), any number of further idle-introspection triggers
issues no additional `GetAll` call and the in-flight state persists. -/
theorem cm_getall_issued_at_most_once_concurrently (s : CMState) (n : Nat)
    (h : introspection_in_progress s = true) :
    introspection_in_progress (tp_connection_manager_idle_introspect^[n] s) = true ∧
    (tp_connection_manager_idle_introspect^[n] s).calls_issued = s.calls_issued := by
  induction n with
  | zero => exact ⟨h, rfl⟩
  | succ n ih =>
      rw [Function.iterate_succ_apply', idle_introspect_in_progress_noop _ ih.1]
      refine ⟨?_, ?_⟩
      · simpa [introspection_in_progress] using ih.1
      · simpa using ih.2

theorem cm_getall_issued_at_most_once_concurrently_witness :
    introspection_in_progress
      { cmInit Option.none with
          introspection_step := IntrospectionStep.gettingProperties,
          introspection_call := true } = true ∧
    (tp_connection_manager_idle_introspect^[3]
      { cmInit Option.none with
          introspection_step := IntrospectionStep.gettingProperties,
          introspection_call := true }).calls_issued =
      ({ cmInit Option.none with
          introspection_step := IntrospectionStep.gettingProperties,
          introspection_call := true } : CMState).calls_issued :=
  ⟨by decide,
   (cm_getall_issued_at_most_once_concurrently _ 3 (by decide)).2⟩

/-- C2: when a live introspection ends in failure, the error is suppressed
and the core feature is marked prepared (with the committed protocol table
untouched) iff `info_source > NONE`; with `info_source = NONE` the failure
propagates and the core feature is marked failed with that error. -/
theorem cm_introspection_failure_policy (s : CMState) (e : CMError) :
    (s.info_source ≠ TpCMInfoSource.none →
        (tp_connection_manager_end_introspection s (Option.some e)).core_feature =
          FeatureState.prepared ∧
        (tp_connection_manager_end_introspection s (Option.some e)).protocol_objects =
          s.protocol_objects) ∧
    (s.info_source = TpCMInfoSource.none →
        (tp_connection_manager_end_introspection s (Option.some e)).core_feature =
          FeatureState.failed e ∧
        (tp_connection_manager_end_introspection s (Option.some e)).protocol_objects =
          s.protocol_objects) := by
  unfold tp_connection_manager_end_introspection tp_connection_manager_ready_or_failed
  constructor
  · intro h
    have hgt : TpCMInfoSource.none.toNat < s.info_source.toNat := by
      cases hs : s.info_source <;> simp_all [TpCMInfoSource.toNat]
    simp [hgt]
  · intro h
    simp [h, TpCMInfoSource.toNat]

theorem cm_introspection_failure_policy_witness :
    ((tp_connection_manager_end_introspection
        { cmInit Option.none with info_source := TpCMInfoSource.file }
        (Option.some (CMError.dbusError 1))).core_feature = FeatureState.prepared) ∧
    ((tp_connection_manager_end_introspection (cmInit Option.none)
        (Option.some (CMError.dbusError 1))).core_feature =
      FeatureState.failed (CMError.dbusError 1)) :=
  ⟨((cm_introspection_failure_policy _ _).1 (by decide)).1,
   ((cm_introspection_failure_policy _ _).2 rfl).1⟩

/-- C9: the debug-message queue is a drop-oldest bounded FIFO.  Any sequence
of adds starting from the empty queue keeps at most `DEBUG_MESSAGE_LIMIT`
(800) messages; adding to a queue at or above the limit first evicts the head
(the oldest message) and then appends at the tail; adding the 801st message
to a full queue of 800 evicts the oldest and keeps the length at 800; below
the limit a message is just appended. -/
theorem debug_queue_bounded_drop_oldest :
    (∀ msgs : List DebugMessage,
        (msgs.foldl tp_debug_sender_add_message []).length ≤ DEBUG_MESSAGE_LIMIT) ∧
    (∀ (q : List DebugMessage) (m : DebugMessage), DEBUG_MESSAGE_LIMIT ≤ q.length →
        tp_debug_sender_add_message q m = q.tail ++ [m]) ∧
    (∀ (q : List DebugMessage) (m : DebugMessage), q.length = DEBUG_MESSAGE_LIMIT →
        (tp_debug_sender_add_message q m).length = DEBUG_MESSAGE_LIMIT ∧
        tp_debug_sender_add_message q m = q.tail ++ [m]) ∧
    (∀ (q : List DebugMessage) (m : DebugMessage), q.length < DEBUG_MESSAGE_LIMIT →
        tp_debug_sender_add_message q m = q ++ [m]) := by
  refine ⟨fun msgs => foldl_add_message_bound msgs [] (by simp), ?_, ?_, ?_⟩
  · intro q m h
    unfold tp_debug_sender_add_message
    simp [h]
  · intro q m h
    refine ⟨?_, ?_⟩
    · rw [add_message_length, if_pos (le_of_eq h.symm), h]
      decide
    · unfold tp_debug_sender_add_message
      simp [le_of_eq h.symm]
  · intro q m h
    unfold tp_debug_sender_add_message
    simp [Nat.not_le.mpr h]

theorem debug_queue_bounded_drop_oldest_witness :
    tp_debug_sender_add_message
        (List.replicate DEBUG_MESSAGE_LIMIT
          ({ timestamp_sec := 0, timestamp_usec := 0, domain := "tp-glib",
             level := 5, string := "old" } : DebugMessage))
        ({ timestamp_sec := 1, timestamp_usec := 0, domain := "tp-glib",
           level := 5, string := "new" } : DebugMessage) =
      (List.replicate DEBUG_MESSAGE_LIMIT
          ({ timestamp_sec := 0, timestamp_usec := 0, domain := "tp-glib",
             level := 5, string := "old" } : DebugMessage)).tail ++
        [({ timestamp_sec := 1, timestamp_usec := 0, domain := "tp-glib",
            level := 5, string := "new" } : DebugMessage)] :=
  debug_queue_bounded_drop_oldest.2.1 _ _ (by simp)

theorem ready_or_failed_inv (s : CMState) (e : Option CMError) (h : CMInv s) :
    CMInv (tp_connection_manager_ready_or_failed s e) := by
  unfold tp_connection_manager_ready_or_failed
  split <;> exact ⟨h.1, h.2⟩

theorem end_introspection_inv (s : CMState) (e : Option CMError) :
    CMInv (tp_connection_manager_end_introspection s e) := by
  unfold tp_connection_manager_end_introspection
  exact ready_or_failed_inv _ _ ⟨rfl, rfl⟩

theorem continue_introspection_inv (s : CMState) (h : CMInv s) :
    CMInv (tp_connection_manager_continue_introspection s) := by
  unfold tp_connection_manager_continue_introspection
  split
  · exact ⟨h.1, rfl⟩
  · exact end_introspection_inv _ _

theorem idle_introspect_inv (s : CMState) (h : CMInv s) :
    CMInv (tp_connection_manager_idle_introspect s) := by
  unfold tp_connection_manager_idle_introspect
  split
  · have h2 := continue_introspection_inv s h
    exact ⟨h2.1, h2.2⟩
  · exact ⟨h.1, h.2⟩

theorem get_all_cb_inv (s : CMState) (r : Except CMError (Option (List String)))
    (h : CMInv s) (hc : s.introspection_call = true) :
    CMInv (tp_connection_manager_get_all_cb s r) := by
  have hstep : s.introspection_step = IntrospectionStep.gettingProperties := by
    rw [h.2, hc]
    rfl
  cases r with
  | error e =>
      simp only [tp_connection_manager_get_all_cb]
      split_ifs <;> exact end_introspection_inv _ _
  | ok protos =>
      cases protos with
      | none =>
          simp only [tp_connection_manager_get_all_cb,
            tp_connection_manager_continue_introspection]
          split_ifs with hif
          · exact absurd hif (by simp [hstep])
          · exact end_introspection_inv _ _
      | some ps =>
          simp only [tp_connection_manager_get_all_cb,
            tp_connection_manager_continue_introspection]
          split_ifs with hif
          · exact absurd hif (by simp [hstep])
          · exact end_introspection_inv _ _

theorem name_owner_changed_tail_inv (s : CMState) (h : CMInv s) :
    CMInv (name_owner_changed_tail s) := by
  simp only [name_owner_changed_tail]
  split_ifs <;> exact ⟨h.1, h.2⟩

theorem cancel_on_owner_lost_inv (s : CMState) (h : CMInv s) :
    CMInv (cm_cancel_introspection_on_owner_lost s) := by
  unfold cm_cancel_introspection_on_owner_lost
  split
  · exact end_introspection_inv _ _
  · exact h

theorem emit_exited_if_known_inv (s : CMState) (h : CMInv s) :
    CMInv (cm_emit_exited_if_known s) := by
  unfold cm_emit_exited_if_known
  split
  · exact ⟨h.1, h.2⟩
  · exact h

theorem name_owner_changed_empty_inv (s : CMState) (h : CMInv s) :
    CMInv (tp_connection_manager_name_owner_changed_empty s) :=
  name_owner_changed_tail_inv _
    (emit_exited_if_known_inv _ (cancel_on_owner_lost_inv _ ⟨h.1, h.2⟩))

theorem restart_after_exit_inv (s : CMState) (h : CMInv s) :
    CMInv (cm_restart_after_exit s) := by
  unfold cm_restart_after_exit
  apply name_owner_changed_tail_inv
  split
  · exact ⟨h.1, h.2⟩
  · exact ⟨h.1, h.2⟩

theorem name_owner_changed_cb_inv (s : CMState) (owner : String) (h : CMInv s) :
    CMInv (tp_connection_manager_name_owner_changed_cb s owner) := by
  unfold tp_connection_manager_name_owner_changed_cb
  split
  · exact name_owner_changed_empty_inv s h
  · apply restart_after_exit_inv
    split
    · exact name_owner_changed_empty_inv s h
    · exact h

theorem idle_read_manager_file_inv (s : CMState) (r : Except Unit ProtocolTable)
    (h : CMInv s) : CMInv (tp_connection_manager_idle_read_manager_file s r) := by
  have h1 : CMInv ({ s with manager_file_read_idle_id := false } : CMState) :=
    ⟨h.1, h.2⟩
  cases hmf : s.manager_file with
  | none =>
      simp only [tp_connection_manager_idle_read_manager_file, hmf]
      split_ifs <;>
        first
          | exact idle_introspect_inv _ h1
          | exact h1
  | some f =>
      cases r with
      | error u =>
          simp only [tp_connection_manager_idle_read_manager_file, hmf]
          split_ifs <;>
            first
              | exact idle_introspect_inv _ h1
              | exact h1
      | ok protocols =>
          simp only [tp_connection_manager_idle_read_manager_file, hmf]
          split_ifs <;>
            first
              | exact ready_or_failed_inv _ _ ⟨h1.1, h1.2⟩
              | exact idle_introspect_inv _ h1
              | exact h1

theorem cmStep_inv (s : CMState) (e : CMEvent) (h : CMInv s) : CMInv (cmStep s e) := by
  cases e with
  | nameOwnerChanged owner =>
      simp only [cmStep]
      exact name_owner_changed_cb_inv s owner h
  | idleIntrospect =>
      simp only [cmStep]
      split_ifs
      · exact idle_introspect_inv s h
      · exact h
  | idleReadManagerFile r =>
      simp only [cmStep]
      split_ifs
      · exact idle_read_manager_file_inv s r h
      · exact h
  | getAllReply r =>
      simp only [cmStep]
      split_ifs with hc
      · exact get_all_cb_inv s r h hc
      · exact h
  | setManagerFile v f =>
      simp only [cmStep, tp_connection_manager_set_property_manager_file]
      split_ifs <;> exact ⟨h.1, h.2⟩
  | setAlwaysIntrospect b =>
      simp only [cmStep, tp_connection_manager_set_property_always_introspect]
      split_ifs <;> exact ⟨h.1, h.2⟩
  | activate =>
      simp only [cmStep, tp_connection_manager_activate]
      split_ifs <;>
        first
          | exact h
          | exact ⟨h.1, h.2⟩

theorem cm_reachable_inv (s : CMState) (h : CMReachable s) : CMInv s := by
  induction h with
  | init mf => exact ⟨rfl, rfl⟩
  | step e _ ih => exact cmStep_inv _ e ih

/-- C3: lifecycle of the scratch protocol table.  (1) On successful
completion of a live introspection (`continue_introspection` past the
`GetAll` step), the committed table becomes exactly the scratch table in one
transition (and `info_source` becomes `LIVE`), with the scratch slot cleared
before the handler returns, so no partially populated set is observable.
(2) On a failed or cancelled introspection (`end_introspection` with an
error), the scratch table is discarded and the committed table is unchanged.
(3) In any reachable quiescent state with no introspection in flight, the
scratch table is NULL. -/
theorem cm_scratch_table_lifecycle :
    (∀ s : CMState, s.introspection_step ≠ IntrospectionStep.idle →
        (tp_connection_manager_continue_introspection s).protocol_objects =
          s.found_protocols ∧
        (tp_connection_manager_continue_introspection s).found_protocols =
          Option.none ∧
        (tp_connection_manager_continue_introspection s).info_source =
          TpCMInfoSource.live) ∧
    (∀ (s : CMState) (e : CMError),
        (tp_connection_manager_end_introspection s (Option.some e)).protocol_objects =
          s.protocol_objects ∧
        (tp_connection_manager_end_introspection s (Option.some e)).found_protocols =
          Option.none) ∧
    (∀ s : CMState, CMReachable s → introspection_in_progress s = false →
        s.found_protocols = Option.none) := by
  refine ⟨?_, ?_, ?_⟩
  · intro s h
    unfold tp_connection_manager_continue_introspection
    rw [if_neg h]
    unfold tp_connection_manager_end_introspection
      tp_connection_manager_ready_or_failed
    split <;> exact ⟨rfl, rfl, rfl⟩
  · intro s e
    unfold tp_connection_manager_end_introspection
      tp_connection_manager_ready_or_failed
    split <;> exact ⟨rfl, rfl⟩
  · intro s h _
    exact (cm_reachable_inv s h).1

theorem cm_scratch_table_lifecycle_witness :
    ((tp_connection_manager_continue_introspection
        { cmInit Option.none with
            introspection_step := IntrospectionStep.gettingProperties,
            found_protocols := Option.some ["jabber"] }).protocol_objects =
      ({ cmInit Option.none with
            introspection_step := IntrospectionStep.gettingProperties,
            found_protocols := Option.some ["jabber"] } : CMState).found_protocols) ∧
    ((tp_connection_manager_end_introspection
        { cmInit Option.none with protocol_objects := Option.some ["jabber"] }
        (Option.some CMError.nameOwnerLost)).protocol_objects =
      ({ cmInit Option.none with
            protocol_objects := Option.some ["jabber"] } : CMState).protocol_objects) ∧
    (cmInit Option.none).found_protocols = Option.none :=
  ⟨(cm_scratch_table_lifecycle.1 _ (by decide)).1,
   (cm_scratch_table_lifecycle.2.1 _ _).1,
   cm_scratch_table_lifecycle.2.2 _ (CMReachable.init Option.none) (by decide)⟩

/-- C4 (evaluation at the failing input): after the owner appears, the idle
introspection issues `GetAll`, and the reply succeeds but carries no usable
`Protocols` entry, the code commits `info_source = LIVE` with a NULL
committed table; the already-scheduled `.manager`-file read then succeeds
and moves `info_source` backwards from `LIVE` to `FILE` — contradicting the
claimed monotonicity (and the code's own comment that the previous value
must have been `NONE`). -/
theorem cm_info_source_moves_backward_live_to_file :
    (List.foldl cmStep (cmInit (Option.some "gabble.manager"))
        [CMEvent.nameOwnerChanged ":1.42", CMEvent.idleIntrospect,
         CMEvent.getAllReply (Except.ok Option.none)]).info_source =
      TpCMInfoSource.live ∧
    (List.foldl cmStep (cmInit (Option.some "gabble.manager"))
        [CMEvent.nameOwnerChanged ":1.42", CMEvent.idleIntrospect,
         CMEvent.getAllReply (Except.ok Option.none)]).protocol_objects =
      Option.none ∧
    (List.foldl cmStep (cmInit (Option.some "gabble.manager"))
        [CMEvent.nameOwnerChanged ":1.42", CMEvent.idleIntrospect,
         CMEvent.getAllReply (Except.ok Option.none),
         CMEvent.idleReadManagerFile (Except.ok ["jabber"])]).info_source =
      TpCMInfoSource.file := by
  refine ⟨?_, ?_, ?_⟩ <;> decide

theorem name_owner_changed_tail_id (s : CMState) (h : s.name_known = true) :
    name_owner_changed_tail s = s := by
  unfold name_owner_changed_tail
  simp [h]

theorem cancel_on_owner_lost_fields (s : CMState) :
    (cm_cancel_introspection_on_owner_lost s).name_known = s.name_known ∧
    (cm_cancel_introspection_on_owner_lost s).running = s.running ∧
    (cm_cancel_introspection_on_owner_lost s).exited_emitted = s.exited_emitted ∧
    (cm_cancel_introspection_on_owner_lost s).activated_emitted = s.activated_emitted ∧
    (cm_cancel_introspection_on_owner_lost s).introspect_idle_id = s.introspect_idle_id ∧
    (cm_cancel_introspection_on_owner_lost s).protocol_objects = s.protocol_objects ∧
    (cm_cancel_introspection_on_owner_lost s).info_source = s.info_source := by
  unfold cm_cancel_introspection_on_owner_lost
  split
  · exact ⟨rfl, rfl, rfl, rfl, rfl, rfl, rfl⟩
  · exact ⟨rfl, rfl, rfl, rfl, rfl, rfl, rfl⟩

theorem cancel_on_owner_lost_in_progress (s : CMState)
    (h : introspection_in_progress s = true) :
    (cm_cancel_introspection_on_owner_lost s).introspection_call = false ∧
    (cm_cancel_introspection_on_owner_lost s).found_protocols = Option.none ∧
    (cm_cancel_introspection_on_owner_lost s).core_feature =
      (if TpCMInfoSource.none.toNat < s.info_source.toNat then FeatureState.prepared
       else FeatureState.failed CMError.nameOwnerLost) := by
  unfold cm_cancel_introspection_on_owner_lost
  rw [if_pos h]
  refine ⟨rfl, rfl, ?_⟩
  unfold tp_connection_manager_end_introspection tp_connection_manager_ready_or_failed
  by_cases hc : TpCMInfoSource.none.toNat < s.info_source.toNat
  · simp [hc]
  · simp [hc]

theorem emit_exited_if_known_eq (s : CMState) (h : s.name_known = true) :
    cm_emit_exited_if_known s = { s with exited_emitted := s.exited_emitted + 1 } := by
  unfold cm_emit_exited_if_known
  rw [if_pos h]

theorem restart_after_exit_fields (s : CMState) (h : s.name_known = true) :
    (cm_restart_after_exit s).running = true ∧
    (cm_restart_after_exit s).activated_emitted = s.activated_emitted + 1 ∧
    (cm_restart_after_exit s).exited_emitted = s.exited_emitted ∧
    (cm_restart_after_exit s).introspect_idle_id = true ∧
    (cm_restart_after_exit s).introspection_call = s.introspection_call ∧
    (cm_restart_after_exit s).found_protocols = s.found_protocols ∧
    (cm_restart_after_exit s).core_feature = s.core_feature := by
  unfold cm_restart_after_exit
  split
  · rw [name_owner_changed_tail_id
        { s with running := true,
                 activated_emitted := s.activated_emitted + 1,
                 introspect_idle_id := true } h]
    exact ⟨rfl, rfl, rfl, rfl, rfl, rfl, rfl⟩
  · rename_i hidle
    rw [name_owner_changed_tail_id
        { s with running := true,
                 activated_emitted := s.activated_emitted + 1 } h]
    refine ⟨rfl, rfl, rfl, ?_, rfl, rfl, rfl⟩
    simpa using hidle

theorem cb_nonempty_owner_running (s : CMState) (owner : String)
    (hr : s.running = true) (hw : owner ≠ "") :
    tp_connection_manager_name_owner_changed_cb s owner =
      cm_restart_after_exit (tp_connection_manager_name_owner_changed_empty s) := by
  unfold tp_connection_manager_name_owner_changed_cb
  rw [if_neg hw, if_pos hr]

theorem name_owner_changed_empty_eq (s : CMState) (hk : s.name_known = true) :
    tp_connection_manager_name_owner_changed_empty s =
      { cm_cancel_introspection_on_owner_lost { s with running := false } with
          exited_emitted :=
            (cm_cancel_introspection_on_owner_lost
              { s with running := false }).exited_emitted + 1 } := by
  have hCname :
      (cm_cancel_introspection_on_owner_lost
        { s with running := false }).name_known = true := by
    rw [(cancel_on_owner_lost_fields _).1]
    exact hk
  unfold tp_connection_manager_name_owner_changed_empty
  rw [emit_exited_if_known_eq _ hCname]
  rw [name_owner_changed_tail_id
      { cm_cancel_introspection_on_owner_lost { s with running := false } with
          exited_emitted :=
            (cm_cancel_introspection_on_owner_lost
              { s with running := false }).exited_emitted + 1 } hCname]

/-- C10: a non-empty new owner observed while the manager is already running
is processed as an exit followed by a restart: the handler equals the
`new_owner == ""` handling (mark not running, cancel any in-flight
introspection with the name-owner-lost error subject to the suppression
policy, emit `exited`) composed with the restart handling (mark running,
emit `activated`, schedule a fresh idle introspection).  Consequently one
`exited` and one `activated` are emitted, the manager ends up running with
an introspection scheduled, and an in-flight introspection is cancelled with
the core feature resolved per the suppression policy. -/
theorem cm_atomic_owner_change_exit_then_restart (s : CMState) (owner : String)
    (hr : s.running = true) (hk : s.name_known = true) (hw : owner ≠ "") :
    tp_connection_manager_name_owner_changed_cb s owner =
      cm_restart_after_exit (tp_connection_manager_name_owner_changed_empty s) ∧
    (tp_connection_manager_name_owner_changed_cb s owner).exited_emitted =
      s.exited_emitted + 1 ∧
    (tp_connection_manager_name_owner_changed_cb s owner).activated_emitted =
      s.activated_emitted + 1 ∧
    (tp_connection_manager_name_owner_changed_cb s owner).running = true ∧
    (tp_connection_manager_name_owner_changed_cb s owner).introspect_idle_id = true ∧
    (introspection_in_progress s = true →
      (tp_connection_manager_name_owner_changed_cb s owner).introspection_call = false ∧
      (tp_connection_manager_name_owner_changed_cb s owner).found_protocols =
        Option.none ∧
      (s.info_source = TpCMInfoSource.none →
        (tp_connection_manager_name_owner_changed_cb s owner).core_feature =
          FeatureState.failed CMError.nameOwnerLost) ∧
      (s.info_source ≠ TpCMInfoSource.none →
        (tp_connection_manager_name_owner_changed_cb s owner).core_feature =
          FeatureState.prepared)) := by
  have hkey := cb_nonempty_owner_running s owner hr hw
  have hempty := name_owner_changed_empty_eq s hk
  have hCname :
      (cm_cancel_introspection_on_owner_lost
        { s with running := false }).name_known = true := by
    rw [(cancel_on_owner_lost_fields _).1]
    exact hk
  have hEname : (tp_connection_manager_name_owner_changed_empty s).name_known = true := by
    rw [hempty]
    exact hCname
  have hrf := restart_after_exit_fields
    (tp_connection_manager_name_owner_changed_empty s) hEname
  have hcf := cancel_on_owner_lost_fields ({ s with running := false } : CMState)
  refine ⟨hkey, ?_, ?_, ?_, ?_, ?_⟩
  · rw [hkey, hrf.2.2.1, hempty]
    show (cm_cancel_introspection_on_owner_lost
        { s with running := false }).exited_emitted + 1 = s.exited_emitted + 1
    rw [hcf.2.2.1]
  · rw [hkey, hrf.2.1, hempty]
    show (cm_cancel_introspection_on_owner_lost
        { s with running := false }).activated_emitted + 1 = s.activated_emitted + 1
    rw [hcf.2.2.2.1]
  · rw [hkey]
    exact hrf.1
  · rw [hkey]
    exact hrf.2.2.2.1
  · intro hip
    have hip1 : introspection_in_progress ({ s with running := false } : CMState) = true :=
      hip
    have hcp := cancel_on_owner_lost_in_progress _ hip1
    refine ⟨?_, ?_, ?_, ?_⟩
    · rw [hkey, hrf.2.2.2.2.1, hempty]
      exact hcp.1
    · rw [hkey, hrf.2.2.2.2.2.1, hempty]
      exact hcp.2.1
    · intro hinfo
      rw [hkey, hrf.2.2.2.2.2.2, hempty]
      show (cm_cancel_introspection_on_owner_lost
          { s with running := false }).core_feature = FeatureState.failed CMError.nameOwnerLost
      rw [hcp.2.2]
      simp [hinfo, TpCMInfoSource.toNat]
    · intro hinfo
      rw [hkey, hrf.2.2.2.2.2.2, hempty]
      show (cm_cancel_introspection_on_owner_lost
          { s with running := false }).core_feature = FeatureState.prepared
      rw [hcp.2.2]
      cases hI : s.info_source with
      | none => exact absurd hI hinfo
      | file => simp [hI, TpCMInfoSource.toNat]
      | live => simp [hI, TpCMInfoSource.toNat]

theorem cm_atomic_owner_change_exit_then_restart_witness :
    (tp_connection_manager_name_owner_changed_cb
        { cmInit Option.none with
            running := true, name_known := true,
            introspection_step := IntrospectionStep.gettingProperties,
            introspection_call := true,
            info_source := TpCMInfoSource.file } ":1.9").exited_emitted =
      ({ cmInit Option.none with
            running := true, name_known := true,
            introspection_step := IntrospectionStep.gettingProperties,
            introspection_call := true,
            info_source := TpCMInfoSource.file } : CMState).exited_emitted + 1 ∧
    (tp_connection_manager_name_owner_changed_cb
        { cmInit Option.none with
            running := true, name_known := true,
            introspection_step := IntrospectionStep.gettingProperties,
            introspection_call := true,
            info_source := TpCMInfoSource.file } ":1.9").core_feature =
      FeatureState.prepared :=
  ⟨(cm_atomic_owner_change_exit_then_restart _ ":1.9" rfl rfl (by decide)).2.1,
   ((cm_atomic_owner_change_exit_then_restart _ ":1.9" rfl rfl (by decide)).2.2.2.2.2
      (by decide)).2.2.2 (by decide)⟩

theorem got_ready_cb_state (st : ObsState) (ch : TplChannelInput) :
    (if ch.prep_ok then tpl_observer_register_channel st ch.path else st) =
      ({ channel_map := settle_register st.channel_map ch,
         replies_sent := st.replies_sent } : ObsState) := by
  unfold tpl_observer_register_channel settle_register
  split
  · rfl
  · rfl

theorem run_ready_callbacks_complete (chans : List TplChannelInput)
    (st : ObsState) (ctx : ObservingContext)
    (hn : ctx.chan_n = chans.length) (hne : chans ≠ []) :
    run_ready_callbacks st (Option.some ctx) chans =
      (({ channel_map := chans.foldl settle_register st.channel_map,
          replies_sent := st.replies_sent +
            (if ctx.has_dbus_ctx then 1 else 0) } : ObsState),
       (Option.none : Option ObservingContext)) := by
  induction chans generalizing st ctx with
  | nil => exact absurd rfl hne
  | cons c rest ih =>
      simp only [run_ready_callbacks, got_tpl_channel_text_ready_cb,
        gtcr_decrement_and_finish, got_ready_cb_state st c]
      by_cases hrest : rest = []
      · subst hrest
        have h1 : ctx.chan_n - 1 = 0 := by
          rw [hn]
          rfl
        rw [if_pos h1]
        simp only [run_ready_callbacks, List.foldl_cons, List.foldl_nil]
        split
        · rename_i hdbus
          simp [hdbus]
        · rename_i hdbus
          simp [Bool.not_eq_true] at hdbus
          simp [hdbus]
      · have hlen : rest.length ≠ 0 := by
          simpa [List.length_eq_zero] using hrest
        have h1 : ctx.chan_n - 1 ≠ 0 := by
          rw [hn]
          simpa using hlen
        rw [if_neg h1]
        have hn1 : ({ ctx with chan_n := ctx.chan_n - 1 } : ObservingContext).chan_n =
            rest.length := by
          simp [hn]
        rw [ih _ _ hn1 hrest]
        simp

theorem run_ready_callbacks_early (chans : List TplChannelInput)
    (st : ObsState) (ctx : ObservingContext)
    (hn : chans.length < ctx.chan_n) :
    run_ready_callbacks st (Option.some ctx) chans =
      (({ channel_map := chans.foldl settle_register st.channel_map,
          replies_sent := st.replies_sent } : ObsState),
       Option.some { ctx with chan_n := ctx.chan_n - chans.length }) := by
  induction chans generalizing st ctx with
  | nil => simp [run_ready_callbacks]
  | cons c rest ih =>
      simp only [run_ready_callbacks, got_tpl_channel_text_ready_cb,
        gtcr_decrement_and_finish, got_ready_cb_state st c]
      have h1 : ctx.chan_n - 1 ≠ 0 := by
        simp only [List.length_cons] at hn
        omega
      rw [if_neg h1]
      have hn1 : rest.length <
          ({ ctx with chan_n := ctx.chan_n - 1 } : ObservingContext).chan_n := by
        simp only [List.length_cons] at hn
        simp
        omega
      rw [ih _ _ hn1]
      simp only [List.foldl_cons, List.length_cons]
      have : ctx.chan_n - 1 - rest.length = ctx.chan_n - (rest.length + 1) := by
        omega
      simp [this]

/-- C5 (amended): for an `observe_channels` call whose account and connection
ids are non-empty, that passes the policy gates and acquires its proxies,
with a reply slot and a non-empty channel list, and for which the channel
factory accepts every channel: preparation is started for exactly the listed
channels; delivering all their readiness callbacks — in any order, with any
per-channel outcomes — produces exactly one reply, at the last settlement
(no proper prefix of settlements replies or frees the context), and a
channel is registered in the channel map iff its preparation succeeded. -/
theorem observe_channels_single_reply_and_registration (env : ObsEnv)
    (account connection : Option String) (channels : List TplChannelInput)
    (st : ObsState)
    (hacc : tpl_str_empty account = false)
    (hconn : tpl_str_empty connection = false)
    (hen : env.globally_enabled = true)
    (hig : env.account_ignored = false)
    (hbus : env.bus_daemon_ok = true)
    (haccp : env.account_proxy_ok = true)
    (hconnp : env.connection_proxy_ok = true)
    (hne : channels ≠ [])
    (hfac : ∀ c ∈ channels, c.factory_ok = true) :
    tpl_observer_observe_channels env account connection channels true st =
      (st, ObserveOutcome.started
        { chan_n := channels.length, has_dbus_ctx := true } channels) ∧
    (∀ settle_order : List TplChannelInput,
        settle_order.length = channels.length →
        run_ready_callbacks st
            (Option.some { chan_n := channels.length, has_dbus_ctx := true })
            settle_order =
          (({ channel_map := settle_order.foldl settle_register st.channel_map,
              replies_sent := st.replies_sent + 1 } : ObsState),
           Option.none)) ∧
    (∀ settle_order : List TplChannelInput,
        settle_order.length < channels.length →
        (run_ready_callbacks st
            (Option.some { chan_n := channels.length, has_dbus_ctx := true })
            settle_order).1.replies_sent = st.replies_sent ∧
        (run_ready_callbacks st
            (Option.some { chan_n := channels.length, has_dbus_ctx := true })
            settle_order).2 ≠ Option.none) := by
  refine ⟨?_, ?_, ?_⟩
  · have hfil : channels.filter (fun c => c.factory_ok) = channels := by
      rw [List.filter_eq_self]
      intro c hc
      simpa using hfac c hc
    unfold tpl_observer_observe_channels
    simp [hacc, hconn, hen, hig, hbus, haccp, hconnp, hfil]
  · intro settle_order hlen
    have hne2 : settle_order ≠ [] := by
      intro hemp
      apply hne
      rw [hemp] at hlen
      exact (List.length_eq_zero.mp hlen.symm)
    rw [run_ready_callbacks_complete settle_order st _ hlen.symm hne2]
    simp
  · intro settle_order hlen
    rw [run_ready_callbacks_early settle_order st _ hlen]
    exact ⟨rfl, by simp⟩

theorem observe_channels_single_reply_and_registration_witness :
    tpl_observer_observe_channels
        { globally_enabled := true, account_ignored := false,
          bus_daemon_ok := true, account_proxy_ok := true,
          connection_proxy_ok := true }
        (Option.some "/org/freedesktop/Telepathy/Account/a")
        (Option.some "/org/freedesktop/Telepathy/Connection/c")
        [{ path := "/chan1", factory_ok := true, prep_ok := true },
         { path := "/chan2", factory_ok := true, prep_ok := false }] true
        { channel_map := [], replies_sent := 0 } =
      (({ channel_map := [], replies_sent := 0 } : ObsState),
       ObserveOutcome.started { chan_n := 2, has_dbus_ctx := true }
         [{ path := "/chan1", factory_ok := true, prep_ok := true },
          { path := "/chan2", factory_ok := true, prep_ok := false }]) ∧
    run_ready_callbacks { channel_map := [], replies_sent := 0 }
        (Option.some { chan_n := 2, has_dbus_ctx := true })
        [{ path := "/chan2", factory_ok := true, prep_ok := false },
         { path := "/chan1", factory_ok := true, prep_ok := true }] =
      (({ channel_map := ["/chan1"], replies_sent := 1 } : ObsState),
       Option.none) :=
  ⟨(observe_channels_single_reply_and_registration
      { globally_enabled := true, account_ignored := false,
        bus_daemon_ok := true, account_proxy_ok := true,
        connection_proxy_ok := true }
      (Option.some "/org/freedesktop/Telepathy/Account/a")
      (Option.some "/org/freedesktop/Telepathy/Connection/c")
      [{ path := "/chan1", factory_ok := true, prep_ok := true },
       { path := "/chan2", factory_ok := true, prep_ok := false }]
      { channel_map := [], replies_sent := 0 }
      rfl rfl rfl rfl rfl rfl rfl (by decide) (by decide)).1,
   (observe_channels_single_reply_and_registration
      { globally_enabled := true, account_ignored := false,
        bus_daemon_ok := true, account_proxy_ok := true,
        connection_proxy_ok := true }
      (Option.some "/org/freedesktop/Telepathy/Account/a")
      (Option.some "/org/freedesktop/Telepathy/Connection/c")
      [{ path := "/chan1", factory_ok := true, prep_ok := true },
       { path := "/chan2", factory_ok := true, prep_ok := false }]
      { channel_map := [], replies_sent := 0 }
      rfl rfl rfl rfl rfl rfl rfl (by decide) (by decide)).2.1
     [{ path := "/chan2", factory_ok := true, prep_ok := false },
      { path := "/chan1", factory_ok := true, prep_ok := true }] rfl⟩

/-- C5 counterexample: a call that passes every gate, has a reply slot and a
non-empty channel list, but whose single channel the channel factory rejects:
the counter is initialised to 1 yet no preparation is started (the started
list is empty), the call itself sends no reply, and delivering the readiness
callbacks of all (zero) started channels leaves the reply count at 0 — the
claimed single reply is never produced. -/
theorem observe_channels_reply_lost_on_factory_failure :
    tpl_observer_observe_channels
        { globally_enabled := true, account_ignored := false,
          bus_daemon_ok := true, account_proxy_ok := true,
          connection_proxy_ok := true }
        (Option.some "/org/freedesktop/Telepathy/Account/a")
        (Option.some "/org/freedesktop/Telepathy/Connection/c")
        [{ path := "/chan", factory_ok := false, prep_ok := true }] true
        { channel_map := [], replies_sent := 0 } =
      (({ channel_map := [], replies_sent := 0 } : ObsState),
       ObserveOutcome.started { chan_n := 1, has_dbus_ctx := true } []) ∧
    (run_ready_callbacks { channel_map := [], replies_sent := 0 }
        (Option.some { chan_n := 1, has_dbus_ctx := true }) []).1.replies_sent = 0 :=
  ⟨by decide, rfl⟩

/-- C6 (evaluation at the failing input): with an empty channel list and a
reply slot present, and every gate passing, the call allocates a context
with counter 0, starts no preparation, and returns without completing the
reply; as no readiness callback is pending, the reply count stays 0 forever
instead of the claimed immediate synchronous completion. -/
theorem observe_channels_empty_list_reply_never_completed :
    tpl_observer_observe_channels
        { globally_enabled := true, account_ignored := false,
          bus_daemon_ok := true, account_proxy_ok := true,
          connection_proxy_ok := true }
        (Option.some "/org/freedesktop/Telepathy/Account/a")
        (Option.some "/org/freedesktop/Telepathy/Connection/c")
        [] true { channel_map := [], replies_sent := 0 } =
      (({ channel_map := [], replies_sent := 0 } : ObsState),
       ObserveOutcome.started { chan_n := 0, has_dbus_ctx := true } []) ∧
    (run_ready_callbacks { channel_map := [], replies_sent := 0 }
        (Option.some { chan_n := 0, has_dbus_ctx := true }) []).1.replies_sent = 0 :=
  ⟨by decide, rfl⟩

/-- C7 (amended): an empty (or NULL) account or connection id makes
`observe_channels` return immediately through the `g_return_if_fail`
precondition checks: the observer state is unchanged — no channel
preparation and no transport activity — and no reply of any kind (in
particular no invalid-argument error) is delivered to the caller. -/
theorem observe_channels_empty_ids_precondition_noop (env : ObsEnv)
    (account connection : Option String) (channels : List TplChannelInput)
    (has_dbus_ctx : Bool) (st : ObsState)
    (h : tpl_str_empty account = true ∨ tpl_str_empty connection = true) :
    tpl_observer_observe_channels env account connection channels has_dbus_ctx st =
      (st, ObserveOutcome.preconditionFailed) := by
  unfold tpl_observer_observe_channels
  rcases h with h | h
  · rw [if_pos h]
  · by_cases h2 : tpl_str_empty account = true
    · rw [if_pos h2]
    · rw [if_neg h2, if_pos h]

theorem observe_channels_empty_ids_precondition_noop_witness :
    tpl_observer_observe_channels
        { globally_enabled := true, account_ignored := false,
          bus_daemon_ok := true, account_proxy_ok := true,
          connection_proxy_ok := true }
        Option.none (Option.some "/conn")
        [{ path := "/chan", factory_ok := true, prep_ok := true }] true
        { channel_map := [], replies_sent := 0 } =
      (({ channel_map := [], replies_sent := 0 } : ObsState),
       ObserveOutcome.preconditionFailed) :=
  observe_channels_empty_ids_precondition_noop _ _ _ _ _ _ (Or.inl rfl)

/-- C7 counterexample: with an empty account id (and everything else valid),
the call returns through the precondition path with the state unchanged: no
reply is sent (the reply count stays 0) and nothing is started, so no
invalid-argument error — nor any reply at all — is delivered to the caller,
contrary to the claim. -/
theorem observe_channels_empty_account_no_error_delivered :
    tpl_observer_observe_channels
        { globally_enabled := true, account_ignored := false,
          bus_daemon_ok := true, account_proxy_ok := true,
          connection_proxy_ok := true }
        (Option.some "") (Option.some "/conn")
        [{ path := "/chan", factory_ok := true, prep_ok := true }] true
        { channel_map := [], replies_sent := 0 } =
      (({ channel_map := [], replies_sent := 0 } : ObsState),
       ObserveOutcome.preconditionFailed) := by
  decide

theorem tp_debug_sender_constructor_inv (s : SenderProcess) (h : SenderInv s) :
    SenderInv (tp_debug_sender_constructor s).1 := by
  cases hds : s.debug_sender with
      | none =>
          simp only [tp_debug_sender_constructor, hds,
            parent_constructor]
          refine ⟨?_, ?_, ?_⟩
          · intro i hi
            simp only [Option.some.injEq] at hi
            subst hi
            constructor
            · simp
            · simp
          · intro j hj
            simp only at hj ⊢
            have hj2 : j ≠ s.heap.next_id := by omega
            simp only [if_neg hj2]
            exact h.2.1 j (by omega)
          · intro i hi
            simp only [List.mem_append, List.mem_singleton] at hi
            rcases hi with hi | hi
            · have := h.2.2 i hi
              simp only at this ⊢
              omega
            · subst hi
              simp
      | some i0 =>
          simp only [tp_debug_sender_constructor, hds, g_object_ref]
          have hi0 := h.1 i0 hds
          refine ⟨?_, ?_, ?_⟩
          · intro i hi
            simp only [Option.some.injEq] at hi
            subst hi
            constructor
            · simp
            · exact hi0.2
          · intro j hj
            simp only at hj ⊢
            have hj2 : j ≠ i0 := by
              intro hc
              subst hc
              exact absurd hi0.2 (by omega)
            simp only [if_neg hj2]
            exact h.2.1 j hj
          · intro i hi
            simp only [List.mem_append, List.mem_singleton] at hi
            rcases hi with hi | hi
            · exact h.2.2 i hi
            · subst hi
              exact hi0.2

theorem senderStep_inv (s : SenderProcess) (op : SenderOp) (h : SenderInv s) :
    SenderInv (senderStep s op) := by
  cases op with
  | dup =>
      simp only [senderStep, tp_debug_sender_g_object_new]
      cases hds : s.debug_sender with
      | none =>
          simp only [hds, tp_debug_sender_constructed]
          exact tp_debug_sender_constructor_inv _ (tp_debug_sender_constructor_inv s h)
      | some i0 =>
          simp only [hds]
          exact tp_debug_sender_constructor_inv s h
  | unref i =>
      simp only [senderStep]
      split
      · rename_i halive
        unfold g_object_unref
        split
        · rename_i hle
          refine ⟨?_, ?_, ?_⟩
          · intro k hk
            simp only at hk
            by_cases hdi : s.debug_sender = Option.some i
            · rw [if_pos hdi] at hk
              exact absurd hk (by simp)
            · rw [if_neg hdi] at hk
              have hk0 := h.1 k hk
              have hki : k ≠ i := by
                intro hc
                subst hc
                exact hdi hk
              constructor
              · simpa [hki] using hk0.1
              · exact hk0.2
          · intro j hj
            simp only at hj ⊢
            by_cases hji : j = i
            · simp [hji]
            · simp only [if_neg hji]
              exact h.2.1 j hj
          · intro k hk
            exact h.2.2 k hk
        · rename_i hgt
          refine ⟨?_, ?_, ?_⟩
          · intro k hk
            simp only at hk
            have hk0 := h.1 k hk
            by_cases hki : k = i
            · subst hki
              refine ⟨?_, hk0.2⟩
              simp
              omega
            · refine ⟨?_, hk0.2⟩
              simpa [hki] using hk0.1
          · intro j hj
            simp only at hj ⊢
            by_cases hji : j = i
            · subst hji
              have := h.2.1 j hj
              omega
            · simp only [if_neg hji]
              exact h.2.1 j hj
          · intro k hk
            exact h.2.2 k hk
      · exact h

theorem sender_reachable_inv (s : SenderProcess) (h : SenderReachable s) :
    SenderInv s := by
  induction h with
  | init =>
      refine ⟨?_, ?_, ?_⟩
      · intro i hi
        exact absurd hi (by simp [senderInit])
      · intro j _
        rfl
      · intro i hi
        exact absurd hi (by simp [senderInit])
  | step op _ ih => exact senderStep_inv _ op ih

/-- C8 counterexample (to the claim as stated): from process start, the
first `tp_debug_sender_dup` (`g_object_new`) chains up and then runs the
`constructed` hook, whose re-entrant `g_object_new` leaks a second strong
reference: the returned instance 0 has refcount 2 while the caller holds
only one reference.  When that caller drops the only reference it was ever
given, the instance stays alive at refcount 1, the weak cache entry is NOT
cleared (it still designates instance 0), and the next construction request
returns the identical instance 0 — not a fresh one. -/
theorem debug_sender_weak_entry_not_cleared_after_client_unref :
    (tp_debug_sender_g_object_new senderInit).2 = 0 ∧
    (tp_debug_sender_g_object_new senderInit).1.heap.refcount 0 = 2 ∧
    (g_object_unref (tp_debug_sender_g_object_new senderInit).1 0).debug_sender =
      Option.some 0 ∧
    (g_object_unref (tp_debug_sender_g_object_new senderInit).1 0).heap.refcount 0 = 1 ∧
    (tp_debug_sender_g_object_new
        (g_object_unref (tp_debug_sender_g_object_new senderInit).1 0)).2 = 0 :=
  ⟨rfl, rfl, rfl, rfl, rfl⟩

/-- C8 (amended): singleton lifecycle of the debug sender under the real
`g_object_new` semantics (constructor plus, on fresh construction only, the
`constructed` hook).  While the weak pointer designates an instance, every
further construction request returns that identical instance with one more
strong reference and leaves the cache pointing at it; in every reachable
state the designated instance is alive.  A fresh construction (empty cache)
yields an instance distinct from every instance the constructor ever
returned before, caches it, and — because the `constructed` hook re-enters
`g_object_new` and leaks the resulting reference — hands it to the caller
with refcount 2, of which the caller holds one.  Dropping a caller-held
reference at refcount 2 therefore leaves the instance alive with the weak
entry still set and a later construction returns the same instance; only
dropping the final strong reference (which no code path does for the leaked
one) destroys the instance and clears the weak entry. -/
theorem debug_sender_singleton_lifecycle :
    (∀ (s : SenderProcess) (i : Nat), s.debug_sender = Option.some i →
        (tp_debug_sender_g_object_new s).2 = i ∧
        (tp_debug_sender_g_object_new s).1.heap.refcount i = s.heap.refcount i + 1 ∧
        (tp_debug_sender_g_object_new s).1.debug_sender = Option.some i) ∧
    (∀ (s : SenderProcess) (i : Nat), SenderReachable s →
        s.debug_sender = Option.some i → 0 < s.heap.refcount i) ∧
    (∀ s : SenderProcess, SenderReachable s → s.debug_sender = Option.none →
        (tp_debug_sender_g_object_new s).2 ∉ s.constructed ∧
        (tp_debug_sender_g_object_new s).1.debug_sender =
          Option.some (tp_debug_sender_g_object_new s).2 ∧
        (tp_debug_sender_g_object_new s).1.heap.refcount
          (tp_debug_sender_g_object_new s).2 = 2) ∧
    (∀ (s : SenderProcess) (i : Nat), s.debug_sender = Option.some i →
        s.heap.refcount i = 2 →
        (g_object_unref s i).debug_sender = Option.some i ∧
        (g_object_unref s i).heap.refcount i = 1 ∧
        (tp_debug_sender_g_object_new (g_object_unref s i)).2 = i) ∧
    (∀ (s : SenderProcess) (i : Nat), s.debug_sender = Option.some i →
        s.heap.refcount i = 1 →
        (g_object_unref s i).debug_sender = Option.none ∧
        (g_object_unref s i).heap.refcount i = 0) := by
  refine ⟨?_, ?_, ?_, ?_, ?_⟩
  · intro s i hi
    simp [tp_debug_sender_g_object_new, hi, tp_debug_sender_constructor,
      g_object_ref]
  · intro s i hr hi
    exact ((sender_reachable_inv s hr).1 i hi).1
  · intro s hr hn
    have hinv := sender_reachable_inv s hr
    refine ⟨?_, ?_, ?_⟩
    · simp only [tp_debug_sender_g_object_new, hn, tp_debug_sender_constructed,
        tp_debug_sender_constructor, parent_constructor]
      intro hc
      have := hinv.2.2 _ hc
      omega
    · simp [tp_debug_sender_g_object_new, hn, tp_debug_sender_constructed,
        tp_debug_sender_constructor, parent_constructor, g_object_ref]
    · simp [tp_debug_sender_g_object_new, hn, tp_debug_sender_constructed,
        tp_debug_sender_constructor, parent_constructor, g_object_ref]
  · intro s i hi h2
    unfold g_object_unref
    rw [if_neg (by rw [h2]; omega)]
    refine ⟨?_, ?_, ?_⟩
    · simpa using hi
    · simp [h2]
    · simp [tp_debug_sender_g_object_new, hi, tp_debug_sender_constructor]
  · intro s i hi h1
    unfold g_object_unref
    rw [if_pos (by rw [h1])]
    refine ⟨?_, ?_⟩
    · simp [hi]
    · simp

theorem debug_sender_singleton_lifecycle_witness :
    (tp_debug_sender_g_object_new
        (tp_debug_sender_g_object_new senderInit).1).2 = 0 ∧
    (tp_debug_sender_g_object_new senderInit).2 ∉ senderInit.constructed ∧
    (tp_debug_sender_g_object_new
        (g_object_unref (tp_debug_sender_g_object_new senderInit).1 0)).2 = 0 ∧
    (g_object_unref
        { heap := { next_id := 1, refcount := fun j => if j = 0 then 1 else 0 },
          debug_sender := Option.some 0, constructed := [0, 0] } 0).debug_sender =
      Option.none :=
  ⟨(debug_sender_singleton_lifecycle.1
      (tp_debug_sender_g_object_new senderInit).1 0 rfl).1,
   (debug_sender_singleton_lifecycle.2.2.1 senderInit
      SenderReachable.init rfl).1,
   (debug_sender_singleton_lifecycle.2.2.2.1
      (tp_debug_sender_g_object_new senderInit).1 0 rfl rfl).2.2,
   (debug_sender_singleton_lifecycle.2.2.2.2
      { heap := { next_id := 1, refcount := fun j => if j = 0 then 1 else 0 },
        debug_sender := Option.some 0, constructed := [0, 0] } 0 rfl rfl).1⟩
